import Mathlib

/-!
# Verification of the Kats meta-learner predictability module

A shallow embedding of the class MetaLearnPredictability from
kats/models/metalearner/metalearner_predictability.py, together with theorems
settling the stated properties of its specification.

Modelling conventions:
* Python floats are modelled as rationals; the comparisons the properties
  depend on are exact at the magnitudes involved.
* Raised Python exceptions are modelled by the PyErr type in an Except monad.
* The external sklearn collaborators (random splitting, classifier fitting,
  precision-recall machinery) are modelled as oracle parameters; the spec
  treats them as out-of-scope collaborators.
* The instance dictionary is a structure of Option-valued attributes, so that
  an absent attribute (AttributeError on access) is distinguishable from an
  attribute holding the value None.
-/

namespace KatsMLP

/-- Python exception kinds raised by the embedded code paths. -/
inductive PyErr where
  | valueError (msg : String)
  | attributeError (attr : String)
  | unboundLocalError (var : String)
  | typeError (msg : String)
  deriving DecidableEq, Repr

instance {ε α : Type} [DecidableEq ε] [DecidableEq α] :
    DecidableEq (Except ε α) := fun a b =>
  match a, b with
  | .ok x, .ok y =>
    if h : x = y then .isTrue (by rw [h]) else .isFalse (by simp [h])
  | .error x, .error y =>
    if h : x = y then .isTrue (by rw [h]) else .isFalse (by simp [h])
  | .ok _, .error _ => .isFalse (fun h2 => Except.noConfusion h2)
  | .error _, .ok _ => .isFalse (fun h2 => Except.noConfusion h2)

/-- Decidable test: does the computation raise a ValueError? -/
def raisesValueError {α : Type} : Except PyErr α → Bool
  | .error (.valueError _) => true
  | _ => false

/-- A field of a metadata dictionary: the key may be absent from the dict, be
present as a string on which ast.literal_eval raises, or carry a structured
value (supplied directly, or obtained by a successful literal parse — the two
cases are indistinguishable downstream). -/
inductive DictField (α : Type) where
  | missing : DictField α
  | strBad : DictField α
  | val : α → DictField α
  deriving DecidableEq, Repr

/-- The membership test key in d used by the constructor: true when the key is
present, whether or not its value later parses. -/
def DictField.present {α : Type} : DictField α → Bool
  | .missing => false
  | _ => true

/-- The hpt_res value: a mapping from model name to its tuple. Only index 1 of
the tuple (the error of that model) is ever read by this class; the tuple is
modelled as the list of its slots with the unread hyperparameter slot holding a
placeholder number. -/
abbrev HptRes := List (String × List ℚ)

/-- The features value: a mapping from feature name to numeric value. -/
abbrev FeatMap := List (String × ℚ)

/-- One metadata record (a Python dict with the three relevant keys). -/
structure MetaRecord where
  hpt_res : DictField HptRes
  features : DictField FeatMap
  best_model : DictField String
  deriving DecidableEq, Repr

/-- First half of the loop body of _reorganize_data: parse hpt_res, then parse
features. Returns none when either key access or literal parse raises (the
try/except then skips the rest of the iteration). -/
def parseFields (r : MetaRecord) : Option (HptRes × FeatMap) :=
  match r.hpt_res, r.features with
  | .val hpt, .val feat => some (hpt, feat)
  | _, _ => none

/-- The label source for a record: hpt[metadata[i]["best_model"]][1]. Returns
none when the best_model key is absent, the model name is not a key of hpt, or
the tuple has no index 1 (KeyError or IndexError in the source). -/
def recordError (hpt : HptRes) (r : MetaRecord) : Option ℚ :=
  match r.best_model with
  | .val bm => (hpt.lookup bm).bind (fun t => t.get? 1)
  | _ => none

/-- The loop of _reorganize_data, producing the raw features list and the raw
labels list. The feature map is appended before the label expression is
evaluated, so an iteration that raises only at the label step has already
appended its feature map and is only missing from the labels. -/
def reorganizeLoop : List MetaRecord → List FeatMap × List ℚ
  | [] => ([], [])
  | r :: rest =>
    let acc := reorganizeLoop rest
    match parseFields r with
    | none => acc
    | some (hpt, feat) =>
      match recordError hpt r with
      | none => (feat :: acc.1, acc.2)
      | some e => (feat :: acc.1, e :: acc.2)

/-- Binarization of the raw labels: (np.array(labels) > threshold).astype(int). -/
def thresholdLabels (raw : List ℚ) (threshold : ℚ) : List ℤ :=
  raw.map (fun e => if threshold < e then 1 else 0)

/-- Column names of the pandas DataFrame built from the list of feature maps:
the union of the keys, in first-appearance order. -/
def dfColumns (feats : List FeatMap) : List String :=
  feats.foldl (fun cs f => (f.map Prod.fst).foldl
    (fun cs2 k => if k ∈ cs2 then cs2 else cs2 ++ [k]) cs) []

/-- The zero-filled feature matrix: pd.DataFrame(features) followed by
fillna(0) — one row per kept feature map, one column per known feature name,
absent entries replaced by 0. -/
def dfMatrix (feats : List FeatMap) : List (List ℚ) :=
  let cols := dfColumns feats
  feats.map (fun f => cols.map (fun c => (f.lookup c).getD 0))

/-- Column means of the feature matrix: np.average(values, axis=0). -/
def featuresMean (feats : List FeatMap) : List ℚ :=
  (dfColumns feats).map (fun c =>
    ((feats.map (fun f => (f.lookup c).getD 0)).sum) / (feats.length : ℚ))

/-- Column dispersion statistics with the replacement std == 0 mapped to 1.
np.std is the real square root of the column variance, which is irrational in
general; no verified property depends on the numeric value stored here, and
squaring is injective on the nonnegatives, so the variance (with the
replacement 0 mapped to 1, the square of the replacement in the source) stands
in for the standard deviation. -/
def featuresStdSq (feats : List FeatMap) : List ℚ :=
  (dfColumns feats).map (fun c =>
    let col := feats.map (fun f => (f.lookup c).getD 0)
    let m := col.sum / (col.length : ℚ)
    let v := (col.map (fun x => (x - m) ^ 2)).sum / (col.length : ℚ)
    if v = 0 then 1 else v)

/-- The predict_proba interface of a fitted classifier, restricted to the
class-1 column; sklearn classifiers score rows independently, so the matrix
version is the rowwise map of this function. -/
abbrev Clf := List ℚ → ℚ

/-- The instance dictionary self.__dict__. Each field is one attribute; the
outer none means the attribute is absent (access raises AttributeError).
clf and clf_threshold additionally distinguish the Python value None (the
state set by the constructor before training) from a trained value, and
clf_threshold embeds the source attribute _clf_threshold. features holds the
DataFrame as its zero-filled numeric matrix. -/
structure MLPState where
  metadata : Option (List MetaRecord) := none
  threshold : Option ℚ := none
  features : Option (List (List ℚ)) := none
  labels : Option (List ℤ) := none
  features_mean : Option (List ℚ) := none
  features_std : Option (List ℚ) := none
  rescale : Option Bool := none
  clf : Option (Option Clf) := none
  clf_threshold : Option (Option ℚ) := none

/-- Does the first record of the metadata list contain the three required
keys? This is exactly what the constructor checks (it looks only at index 0). -/
def firstHasKeys : List MetaRecord → Bool
  | [] => false
  | r :: _ => r.hpt_res.present && r.features.present && r.best_model.present

/-- _validate_data: raise unless the label vector holds at least two distinct
values and the (DataFrame) feature table holds more than 30 rows.
np.unique of the label array has one element exactly when the dedup of the
label list does. -/
def validateData (features : List (List ℚ)) (labels : List ℤ) :
    Except PyErr Unit :=
  if labels.dedup.length = 1 then
    .error (.valueError "Only one type of time series data and cannot train a classifier!")
  else if features.length ≤ 30 then
    .error (.valueError "Dataset is too small to train a meta learner!")
  else .ok ()

/-- The constructor __init__(metadata, threshold, load_model). With the load
flag the state is left untouched (every attribute absent). Otherwise: metadata
must be given, hold more than 30 records, and its first record must contain
the three required keys; then _reorganize_data and _validate_data run and the
initial attributes are installed. -/
def init (metadata : Option (List MetaRecord)) (threshold : ℚ)
    (load_model : Bool) : Except PyErr MLPState :=
  if load_model then .ok {}
  else
    match metadata with
    | none => .error (.valueError "Please input meta data to initialize this class.")
    | some md =>
      if md.length ≤ 30 then
        .error (.valueError "Dataset is too small to train a meta learner!")
      else
        match md with
        | [] =>
          -- unreachable: an empty list has length 0 ≤ 30 and errors above
          .error (.valueError "Dataset is too small to train a meta learner!")
        | r0 :: _ =>
          if r0.hpt_res.present = false then
            .error (.valueError "Missing best hyper-params, not able to train a meta learner!")
          else if r0.features.present = false then
            .error (.valueError "Missing time series features, not able to train a meta learner!")
          else if r0.best_model.present = false then
            .error (.valueError "Missing best models, not able to train a meta learner!")
          else
            let fs := (reorganizeLoop md).1
            let labels := thresholdLabels (reorganizeLoop md).2 threshold
            match validateData (dfMatrix fs) labels with
            | .error e => .error e
            | .ok _ =>
              .ok { metadata := some md
                    threshold := some threshold
                    features := some (dfMatrix fs)
                    labels := some labels
                    features_mean := some (featuresMean fs)
                    features_std := some (featuresStdSq fs)
                    rescale := some false
                    clf := some none
                    clf_threshold := some none }

/-- The runtime shape of the source_x argument of pred_by_feature: a numpy
array (modelled by its matrix of entries, a NaN entry as none), a list of 1-D
numpy arrays (one row each, stacked by np.row_stack), or a pandas DataFrame of
feature rows. The DataFrame case falls through to the final else of the
isinstance dispatch in the source, exactly like any other unexpected type. -/
inductive SourceX where
  | ndarray (x : List (List (Option ℚ)))
  | listOf (xs : List (List (Option ℚ)))
  | dataFrame (rows : List (List (Option ℚ)))

/-- Replace NaN entries by zero: the line x[np.isnan(x)] = 0.0. -/
def nanFill (x : List (List (Option ℚ))) : List (List ℚ) :=
  x.map (fun row => row.map (fun v => v.getD 0))

/-- Elementwise (x - mean) / std on one row against the stored statistics. -/
def standardizeRow (mean std row : List ℚ) : List ℚ :=
  (row.zip (mean.zip std)).map (fun p => (p.1 - p.2.1) / p.2.2)

/-- The matrix an accepted input is normalized to before being handed to the
classifier: NaN entries zeroed and, when the rescale flag of the state is set,
each row standardized with the stored mean and std. -/
def processedMatrix (s : MLPState) (x : List (List (Option ℚ))) :
    Except PyErr (List (List ℚ)) :=
  let x1 := nanFill x
  match s.rescale with
  | none => .error (.attributeError "rescale")
  | some false => .ok x1
  | some true =>
    match s.features_mean, s.features_std with
    | some m, some sd => .ok (x1.map (standardizeRow m sd))
    | none, _ => .error (.attributeError "features_mean")
    | some _, none => .error (.attributeError "features_std")

/-- Tail of pred_by_feature once an input of an accepted runtime type has been
turned into a matrix: zero the NaNs, optionally standardize, then map each row
to 1 exactly when the class-1 probability is strictly below the stored
decision threshold, else 0 — the line
(self.clf.predict_proba(x)[:, 1] < self._clf_threshold).astype(int). -/
def processAndPredict (s : MLPState) (c : Clf) (x : List (List (Option ℚ))) :
    Except PyErr (List ℤ) :=
  match processedMatrix s x with
  | .error e => .error e
  | .ok x2 =>
    match s.clf_threshold with
    | none => .error (.attributeError "_clf_threshold")
    | some none => .error (.typeError "comparison of float with NoneType")
    | some (some t) => .ok (x2.map (fun row => if c row < t then (1 : ℤ) else 0))

/-- pred_by_feature(source_x). Checks the trained classifier, dispatches on the
runtime type of source_x — a list is row-stacked, an array is copied, and any
other type (a DataFrame included) reaches the else branch, whose error message
f-string reads the local variable x before it was ever assigned, so the call
dies with UnboundLocalError instead of the intended ValueError — then hands the
matrix to processAndPredict. -/
def pred_by_feature (s : MLPState) (source_x : SourceX) : Except PyErr (List ℤ) :=
  match s.clf with
  | none => .error (.attributeError "clf")
  | some none => .error (.valueError "No model trained yet, please train the model first.")
  | some (some c) =>
    match source_x with
    | .listOf xs => processAndPredict s c xs
    | .ndarray x => processAndPredict s c x
    | .dataFrame _ => .error (.unboundLocalError "x")

/-- save_model(file_path): joblib.dump(self.__dict__, file_path). The
serialized blob is modelled as the state dictionary itself, serialization by
the external library being exact; the returned value is the blob written to
the file. Untrained state raises as in the source, and a state on which the
clf attribute was never created raises AttributeError at the None check. -/
def save_model (s : MLPState) : Except PyErr MLPState :=
  match s.clf with
  | none => .error (.attributeError "clf")
  | some none => .error (.valueError "Please train the model first!")
  | some (some _) => .ok s

/-- The file system seen by load_model: what joblib.load would return at each
path, none when deserialization fails for any reason. -/
abbrev FileStore := String → Option MLPState

/-- load_model(file_path): self.__dict__ = joblib.load(file_path). The whole
instance dictionary is replaced by the loaded blob, whatever state the
instance held before; any deserialization failure is wrapped in ValueError. -/
def load_model (_s : MLPState) (store : FileStore) (file_path : String) :
    Except PyErr MLPState :=
  match store file_path with
  | some st => .ok st
  | none => .error (.valueError "Fail to load model")

/-- The classifier object constructed inside train, carrying the
hyperparameters actually handed to the sklearn constructor. -/
inductive Classifier where
  | gaussianNB
  | gradientBoosting
  | kNeighbors (n_neighbors : ℕ)
  | randomForest (n_estimators : ℕ) (class_weight : String)
  deriving DecidableEq, Repr

/-- The extra keyword arguments that reach the **kwargs dictionary of train.
Under Python call semantics a keyword whose name matches a declared parameter
of train (method, valid_size, test_size, recall_threshold, n_estimators,
n_neighbors) binds to that parameter and never lands in kwargs; in particular
the n_neighbors field below is necessarily none at every call of train, which
is why the KNN branch of the source can never see a caller-chosen value.
Keywords irrelevant to the hyperparameters read by the branches are omitted. -/
structure Kwargs where
  n_neighbors : Option ℕ := none
  class_weight : Option String := none
  deriving DecidableEq, Repr

/-- The classifier-instantiation branch of train, after the method name has
been validated. The KNN branch reads kwargs.get("n_neighbors", 5) — not the
declared n_neighbors parameter, which the body never reads — and the
random-forest branch installs the n_estimators parameter and a
class_weight default of balanced_subsample. -/
def chooseClassifier (method : String) (n_estimators : ℕ) (kwargs : Kwargs) :
    Classifier :=
  if method = "NaiveBayes" then .gaussianNB
  else if method = "GBDT" then .gradientBoosting
  else if method = "KNN" then .kNeighbors (kwargs.n_neighbors.getD 5)
  else .randomForest n_estimators (kwargs.class_weight.getD "balanced_subsample")

/-- The external sklearn collaborators used by train, as oracles:
split x y k models train_test_split(x, y, test_size=k) returning
(x_train, x_test, y_train, y_test); fitProba models clf.fit followed by
predict_proba restricted to the class-1 column; prThreshold models
precision_recall_curve plus the argmax threshold selection, none when that
selection raises (the source then falls back to 0.5); prf models
precision_recall_fscore_support with binary averaging. -/
structure Sklearn where
  split : List (List ℚ) → List ℤ → ℕ →
    List (List ℚ) × List (List ℚ) × List ℤ × List ℤ
  fitProba : Classifier → List (List ℚ) → List ℤ → Clf
  prThreshold : List ℤ → List ℚ → ℚ → Option ℚ
  prf : List ℤ → List Bool → ℚ × ℚ × ℚ

/-- What one call of train did: the data the classifier was fit on, the test
split if any, the returned metrics dictionary (empty list for the empty dict),
the constructed classifier and the chosen decision threshold. -/
structure TrainOutcome where
  fitX : List (List ℚ)
  fitY : List ℤ
  x_test : Option (List (List ℚ))
  y_test : Option (List ℤ)
  ans : List (String × ℚ)
  clf : Classifier
  clf_threshold : ℚ

/-- train(method, valid_size, test_size, recall_threshold, n_estimators,
n_neighbors, **kwargs). Validates the method name and valid_size, resets a
test_size outside (0, 1) to 0 with a warning, splits off the validation set,
then either splits off a test set (when 0 < test_size < 1 - valid_size) or —
in both the test_size == 0 branch and the final else branch — reassigns the
FULL stored dataset, validation rows included, as the training data. It then
instantiates the classifier, fits, scores the validation rows, picks the
decision threshold (0.5 on a failed selection), computes test metrics at that
threshold when a test split exists (note: scored with probability ABOVE the
threshold, the opposite comparison to pred_by_feature), stores the fitted
classifier and threshold on the instance and returns the metrics dict.
The declared n_neighbors parameter is accepted and never read, as in the
source. -/
def train (sk : Sklearn) (s : MLPState) (method : String)
    (valid_size test_size recall_threshold : ℚ) (n_estimators : ℕ)
    (n_neighbors : ℕ) (kwargs : Kwargs) :
    Except PyErr (MLPState × TrainOutcome) :=
  if ¬ (method ∈ ["RandomForest", "GBDT", "KNN", "NaiveBayes"]) then
    .error (.valueError "Only support RandomForest, GBDT, KNN, and NaiveBayes method.")
  else if valid_size ≤ 0 ∨ 1 ≤ valid_size then
    .error (.valueError "valid size should be in (0.0, 1.0)")
  else
    let _ := n_neighbors
    let ts : ℚ := if test_size ≤ 0 ∨ 1 ≤ test_size then 0 else test_size
    match s.features, s.labels with
    | none, _ => .error (.attributeError "features")
    | some _, none => .error (.attributeError "labels")
    | some features, some labels =>
      let n := features.length
      let sp1 := sk.split features labels (((n : ℚ) * valid_size).floor.toNat)
      let x_valid := sp1.2.1
      let y_valid := sp1.2.2.2
      let fit4 : List (List ℚ) × List ℤ × Option (List (List ℚ)) × Option (List ℤ) :=
        if 0 < ts ∧ ts < 1 - valid_size then
          let sp2 := sk.split sp1.1 sp1.2.2.1 (((n : ℚ) * ts).floor.toNat)
          (sp2.1, sp2.2.2.1, some sp2.2.1, some sp2.2.2.2)
        else if ts = 0 then
          (features, labels, none, none)
        else
          -- the else branch of the source: same reassignment, different log line
          (features, labels, none, none)
      let clf := chooseClassifier method n_estimators kwargs
      let proba := sk.fitProba clf fit4.1 fit4.2.1
      let pred_valid := x_valid.map proba
      let clf_threshold := (sk.prThreshold y_valid pred_valid recall_threshold).getD (1 / 2)
      let ans : List (String × ℚ) :=
        match fit4.2.2.1, fit4.2.2.2 with
        | some xt, some yt =>
          let pred_test := xt.map (fun row => decide (clf_threshold < proba row))
          let agree := (pred_test.zip yt).countP
            (fun p => decide (p.2 = if p.1 then 1 else 0))
          let accuracy := (agree : ℚ) / (yt.length : ℚ)
          let m := sk.prf yt pred_test
          [("accuracy", accuracy), ("precision", m.1), ("recall", m.2.1),
           ("f1", m.2.2)]
        | _, _ => []
      let s2 := { s with clf := some (some proba),
                         clf_threshold := some (some clf_threshold) }
      .ok (s2, { fitX := fit4.1, fitY := fit4.2.1, x_test := fit4.2.2.1,
                 y_test := fit4.2.2.2, ans := ans, clf := clf,
                 clf_threshold := clf_threshold })

/-- A call train(method="KNN", n_neighbors=k) with every other argument left
at its default: under Python keyword binding, k binds to the declared
n_neighbors parameter and the kwargs dictionary stays empty. -/
def train_knn_call (sk : Sklearn) (s : MLPState) (k : ℕ) :
    Except PyErr (MLPState × TrainOutcome) :=
  train sk s "KNN" (1 / 10) (1 / 10) (7 / 10) 500 k {}

/-- The matrix carried by an input of an accepted runtime type, none for the
DataFrame case the isinstance dispatch fails to handle. -/
def sourceMatrix? : SourceX → Option (List (List (Option ℚ)))
  | .ndarray x => some x
  | .listOf xs => some xs
  | .dataFrame _ => none

/-! Concrete fixtures used by witnesses and counterexamples. -/

/-- A trivial stand-in for the sklearn collaborators: the splitter sends
everything to the first part, fitting yields the constant-zero score. -/
def sklearnStub : Sklearn where
  split := fun x y _ => (x, [], y, [])
  fitProba := fun _ _ _ => fun _ => 0
  prThreshold := fun _ _ _ => none
  prf := fun _ _ => (0, 0, 0)

/-- A deterministic instance of train_test_split that reserves the last k rows
as the held-out part. -/
def sklearnLast : Sklearn where
  split := fun x y k =>
    (x.take (x.length - k), x.drop (x.length - k),
     y.take (y.length - k), y.drop (y.length - k))
  fitProba := fun _ _ _ => fun row => row.sum
  prThreshold := fun _ _ _ => none
  prf := fun _ _ => (0, 0, 0)

/-- Forty distinguishable single-feature rows. -/
def feats40 : List (List ℚ) := (List.range 40).map (fun j => [(j : ℚ)])

/-- Labels for feats40. -/
def labels40 : List ℤ := (List.range 40).map (fun j => if j < 20 then 0 else 1)

/-- A state as it stands after construction on a 40-row dataset, before
training. -/
def st40 : MLPState where
  features := some feats40
  labels := some labels40
  rescale := some false
  clf := some none
  clf_threshold := some none

/-- A concretely trained state: score a row by its sum, cut at 1. -/
def stTrained : MLPState where
  features := some feats40
  labels := some labels40
  rescale := some false
  clf := some (some (fun row => row.sum))
  clf_threshold := some (some 1)

/-- The synthetic metadata scenario of the spec: 40 records, the first twenty
with best-model error 0.05, the last twenty with 0.5. -/
def md40 : List MetaRecord :=
  (List.range 40).map (fun j =>
    { hpt_res := .val [("best", [0, if j < 20 then 1 / 20 else 1 / 2])]
      features := .val [("f1", (j : ℚ))]
      best_model := .val "best" })

/-- One record whose hpt_res and features parse but whose best_model key is
absent: the loop appends its feature map and then raises at the label lookup. -/
def recNoBest : MetaRecord where
  hpt_res := .val [("best", [0, 1 / 2])]
  features := .val [("fodd", 7)]
  best_model := .missing

/-- md40 with recNoBest inserted after the first twenty records. -/
def md41 : List MetaRecord := md40.take 20 ++ [recNoBest] ++ md40.drop 20

/-- A record whose features string fails literal parsing; the key is present. -/
def recBadFeat : MetaRecord where
  hpt_res := .val [("best", [0, 1 / 2])]
  features := .strBad
  best_model := .val "best"

/-- Thirty-one records of which one fails to parse: 30 usable rows remain. -/
def md31 : List MetaRecord := recBadFeat :: md40.take 30


/-! ## Supporting lemmas -/

theorem dfMatrix_length (feats : List FeatMap) :
    (dfMatrix feats).length = feats.length := by
  simp [dfMatrix]

theorem validateData_ok_iff (f : List (List ℚ)) (l : List ℤ) :
    validateData f l = .ok () ↔ l.dedup.length ≠ 1 ∧ 30 < f.length := by
  unfold validateData
  split_ifs with h1 h2 <;> simp_all

theorem validateData_error_shape (f : List (List ℚ)) (l : List ℤ) :
    validateData f l = .ok () ∨
      ∃ msg, validateData f l = .error (.valueError msg) := by
  unfold validateData
  split_ifs <;> simp

/-- Case analysis of the constructor on real metadata: it either raises a
ValueError or succeeds, and success pins down the branch conditions. -/
theorem init_cases (md : List MetaRecord) (thr : ℚ) :
    raisesValueError (init (some md) thr false) = true ∨
      (∃ st, init (some md) thr false = .ok st) ∧ 30 < md.length ∧
        firstHasKeys md = true ∧ 30 < (reorganizeLoop md).1.length := by
  rw [init.eq_def]
  simp only [Bool.false_eq_true, if_false]
  by_cases h30 : md.length ≤ 30
  · left; simp [h30, raisesValueError]
  · simp only [h30, if_false]
    cases md with
    | nil => simp at h30
    | cons r0 rest =>
      by_cases h1 : r0.hpt_res.present = false
      · left; simp [h1, raisesValueError]
      · by_cases h2 : r0.features.present = false
        · left; simp [h1, h2, raisesValueError]
        · by_cases h3 : r0.best_model.present = false
          · left; simp [h1, h2, h3, raisesValueError]
          · simp only [h1, h2, h3, if_false]
            rcases validateData_error_shape
                (dfMatrix (reorganizeLoop (r0 :: rest)).1)
                (thresholdLabels (reorganizeLoop (r0 :: rest)).2 thr) with hok | ⟨msg, herr⟩
            · have hlen : 30 < (reorganizeLoop (r0 :: rest)).1.length := by
                have h4 := (validateData_ok_iff _ _).mp hok
                rw [dfMatrix_length] at h4
                exact h4.2
              rw [hok]
              right
              refine ⟨⟨_, rfl⟩, by omega, ?_, hlen⟩
              simp only [firstHasKeys]
              simp only [Bool.not_eq_false] at h1 h2 h3
              simp [h1, h2, h3]
            · left; rw [herr]; simp [raisesValueError]

/-! ## Claim theorems -/

/-- C7: every record kept by the reorganization is labelled 1 exactly when the
error of its best model strictly exceeds the threshold, else 0; on the
40-record synthetic scenario (twenty errors of 0.05, twenty of 0.5, threshold
0.2) the label vector is [0]*20 ++ [1]*20 in insertion order and
_validate_data passes. -/
theorem reorganize_label_rule_and_scenario :
    (∀ (md : List MetaRecord) (thr : ℚ) (i : ℕ) (e : ℚ),
      (reorganizeLoop md).2[i]? = some e →
        (((thresholdLabels (reorganizeLoop md).2 thr)[i]? = some 1) ↔ thr < e) ∧
        (((thresholdLabels (reorganizeLoop md).2 thr)[i]? = some 0) ↔ e ≤ thr)) ∧
    thresholdLabels (reorganizeLoop md40).2 (1 / 5) =
      List.replicate 20 0 ++ List.replicate 20 1 ∧
    validateData (dfMatrix (reorganizeLoop md40).1)
      (thresholdLabels (reorganizeLoop md40).2 (1 / 5)) = .ok () := by
  refine ⟨?_, by with_unfolding_all decide, by with_unfolding_all decide⟩
  intro md thr i e h
  have hmap : (thresholdLabels (reorganizeLoop md).2 thr)[i]? =
      some (if thr < e then (1 : ℤ) else 0) := by
    rw [thresholdLabels, List.getElem?_map, h]
    rfl
  rw [hmap]
  by_cases hlt : thr < e
  · rw [if_pos hlt]
    constructor
    · exact ⟨fun _ => hlt, fun _ => rfl⟩
    · constructor
      · intro hc; simp at hc
      · intro hle; exact absurd hlt (not_lt.mpr hle)
  · rw [if_neg hlt]
    constructor
    · constructor
      · intro hc; simp at hc
      · intro hc; exact absurd hc hlt
    · exact ⟨fun _ => le_of_not_lt hlt, fun _ => rfl⟩

/-- C7 witness: the label rule applied to the first kept record of md40, whose
best-model error 0.05 does not exceed the threshold 0.2. -/
theorem reorganize_label_rule_witness :
    (reorganizeLoop md40).2[0]? = some (1 / 20) ∧
    ((((thresholdLabels (reorganizeLoop md40).2 (1 / 5))[0]? = some 1) ↔
        (1 : ℚ) / 5 < 1 / 20) ∧
      (((thresholdLabels (reorganizeLoop md40).2 (1 / 5))[0]? = some 0) ↔
        (1 : ℚ) / 20 ≤ 1 / 5)) :=
  ⟨by with_unfolding_all decide,
    reorganize_label_rule_and_scenario.1 md40 (1 / 5) 0 (1 / 20)
      (by with_unfolding_all decide)⟩

/-- C9: a metadata list of 30 or fewer records makes the constructor raise a
ValueError, and the same bound is re-checked after parsing losses, so a usable
feature-row count of 30 or fewer after reorganization also raises a
ValueError, whatever the original length. -/
theorem init_small_dataset_value_error :
    (∀ (md : List MetaRecord) (thr : ℚ), md.length ≤ 30 →
      raisesValueError (init (some md) thr false) = true) ∧
    (∀ (md : List MetaRecord) (thr : ℚ),
      (reorganizeLoop md).1.length ≤ 30 →
      raisesValueError (init (some md) thr false) = true) := by
  constructor
  · intro md thr h
    rcases init_cases md thr with hv | ⟨_, h30, _⟩
    · exact hv
    · omega
  · intro md thr h
    rcases init_cases md thr with hv | ⟨_, _, _, hlen⟩
    · exact hv
    · omega

/-- C9 witness: the empty metadata list, and the 31-record list with one
unparseable record leaving 30 usable rows, both raise ValueError. -/
theorem init_small_dataset_value_error_witness :
    ([] : List MetaRecord).length ≤ 30 ∧
    raisesValueError (init (some []) (1 / 5) false) = true ∧
    (reorganizeLoop md31).1.length ≤ 30 ∧
    raisesValueError (init (some md31) (1 / 5) false) = true :=
  ⟨by decide, init_small_dataset_value_error.1 [] (1 / 5) (by decide),
    by with_unfolding_all decide,
    init_small_dataset_value_error.2 md31 (1 / 5) (by with_unfolding_all decide)⟩

/-- C10 counterexample: in md41 the 21st record carries hpt_res and features
but no best_model key, so by the claim it is silently skipped; the code keeps
its feature row (41 feature rows against 40 labels) while construction still
succeeds without raising. -/
theorem half_parsed_record_not_skipped :
    (reorganizeLoop md41).1.length = 41 ∧
    (reorganizeLoop md41).2.length = 40 ∧
    raisesValueError (init (some md41) (1 / 5) false) = false := by
  refine ⟨by with_unfolding_all decide, by with_unfolding_all decide,
    by with_unfolding_all decide⟩

/-- C10 amended: the constructor checks the three keys only on the first
record; construction never fails because of a later bad record, provided the
kept feature rows number more than 30 and the labels keep both classes. A
record whose hpt_res or features is missing or unparseable is skipped whole,
while a record failing only at the best-model lookup keeps its feature row and
contributes no label. -/
theorem later_bad_records_construction :
    (∀ (md : List MetaRecord) (thr : ℚ),
      30 < md.length → firstHasKeys md = true →
      30 < (reorganizeLoop md).1.length →
      (thresholdLabels (reorganizeLoop md).2 thr).dedup.length ≠ 1 →
      ∃ st, init (some md) thr false = .ok st) ∧
    (∀ (r : MetaRecord) (rest : List MetaRecord), parseFields r = none →
      reorganizeLoop (r :: rest) = reorganizeLoop rest) ∧
    (∀ (r : MetaRecord) (rest : List MetaRecord) (hpt : HptRes) (feat : FeatMap),
      parseFields r = some (hpt, feat) → recordError hpt r = none →
      reorganizeLoop (r :: rest) =
        (feat :: (reorganizeLoop rest).1, (reorganizeLoop rest).2)) := by
  refine ⟨?_, ?_, ?_⟩
  · intro md thr h30 hkeys hlen hded
    rw [init.eq_def]
    simp only [Bool.false_eq_true, if_false]
    have h30n : ¬ md.length ≤ 30 := by omega
    simp only [h30n, if_false]
    cases md with
    | nil => simp at h30
    | cons r0 rest =>
      simp only [firstHasKeys, Bool.and_eq_true] at hkeys
      simp only [hkeys.1.1, hkeys.1.2, hkeys.2, Bool.true_eq_false, if_false]
      have hok : validateData (dfMatrix (reorganizeLoop (r0 :: rest)).1)
          (thresholdLabels (reorganizeLoop (r0 :: rest)).2 thr) = .ok () := by
        rw [validateData_ok_iff, dfMatrix_length]
        exact ⟨hded, hlen⟩
      rw [hok]
      exact ⟨_, rfl⟩
  · intro r rest hp
    simp [reorganizeLoop, hp]
  · intro r rest hpt feat hp he
    simp [reorganizeLoop, hp, he]

/-- C10 amended witness: md41 satisfies every hypothesis of the success part,
its 21st record exercises the half-kept case, and recBadFeat the skipped
case. -/
theorem later_bad_records_construction_witness :
    (30 < md41.length ∧ firstHasKeys md41 = true ∧
      30 < (reorganizeLoop md41).1.length ∧
      (thresholdLabels (reorganizeLoop md41).2 (1 / 5)).dedup.length ≠ 1 ∧
      ∃ st, init (some md41) (1 / 5) false = .ok st) ∧
    (parseFields recBadFeat = none ∧
      reorganizeLoop [recBadFeat] = reorganizeLoop []) ∧
    (parseFields recNoBest = some ([("best", [0, 1 / 2])], [("fodd", 7)]) ∧
      recordError [("best", [0, 1 / 2])] recNoBest = none ∧
      reorganizeLoop [recNoBest] = ([[("fodd", 7)]], [])) :=
  ⟨⟨by with_unfolding_all decide, by with_unfolding_all decide,
      by with_unfolding_all decide, by with_unfolding_all decide,
      later_bad_records_construction.1 md41 (1 / 5)
        (by with_unfolding_all decide) (by with_unfolding_all decide)
        (by with_unfolding_all decide) (by with_unfolding_all decide)⟩,
    ⟨by decide,
      later_bad_records_construction.2.1 recBadFeat [] (by decide)⟩,
    ⟨by with_unfolding_all decide, by with_unfolding_all decide,
      later_bad_records_construction.2.2 recNoBest [] [("best", [0, 1 / 2])]
        [("fodd", 7)] (by with_unfolding_all decide)
        (by with_unfolding_all decide)⟩⟩

/-- C6 counterexample: an instance constructed with load_model=True never had
its clf attribute created, so calling pred_by_feature or save_model on it dies
with AttributeError, not the ValueError the claim asserts for every untrained
instance. -/
theorem untrained_load_flag_attribute_error :
    init none (1 / 5) true = .ok {} ∧
    pred_by_feature {} (.listOf []) = .error (.attributeError "clf") ∧
    raisesValueError (pred_by_feature ({} : MLPState) (.listOf [])) = false ∧
    save_model ({} : MLPState) = .error (.attributeError "clf") ∧
    raisesValueError (save_model ({} : MLPState)) = false :=
  ⟨rfl, rfl, rfl, rfl, rfl⟩

/-- C6 amended: on an untrained instance whose clf attribute exists and is
None (the state the metadata constructor leaves), pred_by_feature and
save_model raise ValueError; on an instance whose clf attribute was never
created (constructed with load_model=True, load_model never called) they raise
AttributeError instead; and load_model itself never checks the trained state —
it succeeds whenever deserialization does. -/
theorem untrained_error_kinds :
    (∀ (s : MLPState) (x : SourceX), s.clf = some none →
      pred_by_feature s x =
        .error (.valueError "No model trained yet, please train the model first.") ∧
      save_model s = .error (.valueError "Please train the model first!")) ∧
    (∀ (s : MLPState) (x : SourceX), s.clf = none →
      pred_by_feature s x = .error (.attributeError "clf") ∧
      save_model s = .error (.attributeError "clf")) ∧
    (∀ (s : MLPState) (store : FileStore) (p : String) (blob : MLPState),
      store p = some blob → load_model s store p = .ok blob) := by
  refine ⟨?_, ?_, ?_⟩
  · intro s x h
    constructor
    · simp only [pred_by_feature, h]
    · simp only [save_model, h]
  · intro s x h
    constructor
    · simp only [pred_by_feature, h]
    · simp only [save_model, h]
  · intro s store p blob h
    simp only [load_model, h]

/-- C6 amended witness: the constructor-made state st40 raises ValueError, the
empty state raises AttributeError, and load_model succeeds on an untrained
instance whenever the file deserializes. -/
theorem untrained_error_kinds_witness :
    (st40.clf = some none ∧
      pred_by_feature st40 (.listOf []) =
        .error (.valueError "No model trained yet, please train the model first.") ∧
      save_model st40 = .error (.valueError "Please train the model first!")) ∧
    (MLPState.clf {} = none ∧
      pred_by_feature {} (.listOf []) = .error (.attributeError "clf") ∧
      save_model {} = .error (.attributeError "clf")) ∧
    ((fun _ : String => some ({} : MLPState)) "model.pkl" = some {} ∧
      load_model ({} : MLPState) (fun _ => some {}) "model.pkl" = .ok {}) :=
  ⟨⟨rfl, untrained_error_kinds.1 st40 (.listOf []) rfl⟩,
    ⟨rfl, untrained_error_kinds.2.1 {} (.listOf []) rfl⟩,
    ⟨rfl, untrained_error_kinds.2.2 {} (fun _ => some {}) "model.pkl" {} rfl⟩⟩

/-- C5: on a trained model, save_model writes the whole instance dictionary,
and load_model on a fresh load_model=True instance adopts it wholesale, so the
loaded object computes exactly the same pred_by_feature output as the original
on every fixed feature input. -/
theorem save_load_roundtrip_pred (s : MLPState) (c : Clf) (path : String)
    (x : SourceX) (hc : s.clf = some (some c)) :
    init none (1 / 5) true = .ok {} ∧
    save_model s = .ok s ∧
    (load_model {} (fun p => if p = path then some s else none) path).map
      (fun st => pred_by_feature st x) = .ok (pred_by_feature s x) := by
  refine ⟨rfl, ?_, ?_⟩
  · simp only [save_model, hc]
  · simp only [load_model, if_pos]
    rfl

/-- C5 witness: round trip of the concrete trained state stTrained. -/
theorem save_load_roundtrip_pred_witness :
    stTrained.clf = some (some (fun row => row.sum)) ∧
    init none (1 / 5) true = .ok {} ∧
    save_model stTrained = .ok stTrained ∧
    (load_model {} (fun p => if p = "model.pkl" then some stTrained else none)
        "model.pkl").map
      (fun st => pred_by_feature st (.ndarray [[some 1]])) =
      .ok (pred_by_feature stTrained (.ndarray [[some 1]])) :=
  ⟨rfl, save_load_roundtrip_pred stTrained (fun row => row.sum) "model.pkl"
    (.ndarray [[some 1]]) rfl⟩

/-- C3 as code_bug evidence: on a trained model, a DataFrame argument — a type
the signature and docstring accept — reaches the untyped else branch, whose
message f-string reads the unassigned local x, so the call raises
UnboundLocalError and in particular not the ValueError the claim states. -/
theorem pred_by_feature_dataFrame_unbound_local (s : MLPState) (c : Clf)
    (rows : List (List (Option ℚ))) (hc : s.clf = some (some c)) :
    pred_by_feature s (.dataFrame rows) = .error (.unboundLocalError "x") ∧
    raisesValueError (pred_by_feature s (.dataFrame rows)) = false := by
  have h : pred_by_feature s (.dataFrame rows) =
      .error (.unboundLocalError "x") := by
    simp only [pred_by_feature, hc]
  exact ⟨h, by rw [h]; rfl⟩

/-- C3 witness: the concrete trained state stTrained on a one-row DataFrame. -/
theorem pred_by_feature_dataFrame_unbound_local_witness :
    stTrained.clf = some (some (fun row => row.sum)) ∧
    pred_by_feature stTrained (.dataFrame [[some 1, some 2]]) =
      .error (.unboundLocalError "x") ∧
    raisesValueError (pred_by_feature stTrained (.dataFrame [[some 1, some 2]])) =
      false :=
  ⟨rfl, pred_by_feature_dataFrame_unbound_local stTrained (fun row => row.sum)
    [[some 1, some 2]] rfl⟩

/-- C1: on any trained model, for any input of an accepted runtime shape whose
processed matrix is X, pred_by_feature succeeds and yields one 0/1 entry per
row, equal to 1 exactly when the class-1 probability of that row is strictly
below the stored decision threshold and to 0 exactly when it is not — the
inverted comparison the spec describes. -/
theorem pred_by_feature_one_iff_proba_below (s : MLPState) (c : Clf) (t : ℚ)
    (src : SourceX) (xs : List (List (Option ℚ))) (X : List (List ℚ))
    (hc : s.clf = some (some c)) (ht : s.clf_threshold = some (some t))
    (hsrc : sourceMatrix? src = some xs) (hX : processedMatrix s xs = .ok X) :
    ∃ l, pred_by_feature s src = .ok l ∧ l.length = X.length ∧
      ∀ (i : ℕ) (row : List ℚ), X[i]? = some row →
        ((l[i]? = some 1 ↔ c row < t) ∧ (l[i]? = some 0 ↔ t ≤ c row)) := by
  have hpp : processAndPredict s c xs =
      .ok (X.map (fun row => if c row < t then (1 : ℤ) else 0)) := by
    simp only [processAndPredict, hX, ht]
  have hpred : pred_by_feature s src =
      .ok (X.map (fun row => if c row < t then (1 : ℤ) else 0)) := by
    cases src with
    | listOf ys =>
      simp only [sourceMatrix?, Option.some.injEq] at hsrc
      subst hsrc
      simp only [pred_by_feature, hc]
      exact hpp
    | ndarray y =>
      simp only [sourceMatrix?, Option.some.injEq] at hsrc
      subst hsrc
      simp only [pred_by_feature, hc]
      exact hpp
    | dataFrame _ => simp [sourceMatrix?] at hsrc
  refine ⟨_, hpred, by simp, ?_⟩
  intro i row hrow
  have hmap : (X.map (fun row => if c row < t then (1 : ℤ) else 0))[i]? =
      some (if c row < t then (1 : ℤ) else 0) := by
    rw [List.getElem?_map, hrow]
    rfl
  rw [hmap]
  by_cases hlt : c row < t
  · rw [if_pos hlt]
    constructor
    · exact ⟨fun _ => hlt, fun _ => rfl⟩
    · constructor
      · intro hcontra; simp at hcontra
      · intro hle; exact absurd hlt (not_lt.mpr hle)
  · rw [if_neg hlt]
    constructor
    · constructor
      · intro hcontra; simp at hcontra
      · intro hcontra; exact absurd hcontra hlt
    · exact ⟨fun _ => le_of_not_lt hlt, fun _ => rfl⟩

/-- C1 witness: the trained state stTrained (row score its sum, threshold 1)
on the two-row list input with a NaN entry: the first row scores 1 (not below
the threshold, output 0), the second scores one half (below, output 1). -/
theorem pred_by_feature_one_iff_proba_below_witness :
    stTrained.clf = some (some (fun row => row.sum)) ∧
    stTrained.clf_threshold = some (some 1) ∧
    sourceMatrix? (.listOf [[some 1, none], [some 0, some (1 / 2)]]) =
      some [[some 1, none], [some 0, some (1 / 2)]] ∧
    processedMatrix stTrained [[some 1, none], [some 0, some (1 / 2)]] =
      .ok [[1, 0], [0, 1 / 2]] ∧
    ∃ l, pred_by_feature stTrained
        (.listOf [[some 1, none], [some 0, some (1 / 2)]]) = .ok l ∧
      l.length = ([[1, 0], [0, 1 / 2]] : List (List ℚ)).length ∧
      ∀ (i : ℕ) (row : List ℚ),
        ([[1, 0], [0, 1 / 2]] : List (List ℚ))[i]? = some row →
          ((l[i]? = some 1 ↔ (fun row => row.sum) row < 1) ∧
            (l[i]? = some 0 ↔ 1 ≤ (fun row => row.sum) row)) :=
  ⟨rfl, rfl, rfl, rfl,
    pred_by_feature_one_iff_proba_below stTrained (fun row => row.sum) 1
      (.listOf [[some 1, none], [some 0, some (1 / 2)]])
      [[some 1, none], [some 0, some (1 / 2)]] [[1, 0], [0, 1 / 2]]
      rfl rfl rfl rfl⟩

/-- Shared reduction of train through the branches that skip the test split:
whenever the (possibly reset) test size is not strictly inside the remaining
budget, the classifier is fit on the full stored dataset and the returned
metrics dict is empty. -/
theorem train_no_test_proj (sk : Sklearn) (s : MLPState) (method : String)
    (vs ts rt : ℚ) (ne nn : ℕ) (kw : Kwargs)
    (f : List (List ℚ)) (l : List ℤ)
    (hm : method ∈ ["RandomForest", "GBDT", "KNN", "NaiveBayes"])
    (hv0 : 0 < vs) (hv1 : vs < 1)
    (hf : s.features = some f) (hl : s.labels = some l)
    (hts : ts ≤ 0 ∨ 1 ≤ ts ∨ 1 - vs ≤ ts) :
    (train sk s method vs ts rt ne nn kw).map
      (fun p => (p.2.fitX, p.2.fitY, p.2.x_test, p.2.ans)) =
      .ok (f, l, none, []) := by
  have hmm : ¬ ¬ (method ∈ ["RandomForest", "GBDT", "KNN", "NaiveBayes"]) :=
    not_not_intro hm
  have hv : ¬ (vs ≤ 0 ∨ 1 ≤ vs) := by push_neg; exact ⟨hv0, hv1⟩
  rw [train.eq_def]
  simp only [if_neg hmm, if_neg hv, hf, hl]
  by_cases hr : ts ≤ 0 ∨ 1 ≤ ts
  · simp only [if_pos hr]
    have hcond : ¬ ((0 : ℚ) < 0 ∧ (0 : ℚ) < 1 - vs) := by
      intro hcontra; exact absurd hcontra.1 (lt_irrefl 0)
    simp only [if_neg hcond, if_pos rfl]
    rfl
  · have hrneg := hr
    push_neg at hr
    have hbudget : 1 - vs ≤ ts := by
      rcases hts with h | h | h
      · exact absurd h (not_le.mpr hr.1)
      · exact absurd h (not_le.mpr hr.2)
      · exact h
    have hcond : ¬ (0 < ts ∧ ts < 1 - vs) := by
      intro hcontra; exact absurd hcontra.2 (not_lt.mpr hbudget)
    simp only [if_neg hrneg, if_neg hcond, if_neg (ne_of_gt hr.1)]
    rfl

/-- C4 counterexample: concrete 40-row dataset, deterministic splitter holding
out the last four rows for validation, test_size 0: the claim says the fit
set is the 36 rows left after removing the validation split, but the code fits
on all 40 rows. -/
theorem train_skip_test_fits_all_counterexample :
    (train sklearnLast st40 "RandomForest" (1 / 10) 0 (7 / 10) 500 5 {}).map
      (fun p => p.2.fitX.length) = .ok 40 ∧
    (sklearnLast.split feats40 labels40 4).1.length = 36 ∧
    (sklearnLast.split feats40 labels40 4).2.1.length = 4 := by
  refine ⟨by with_unfolding_all decide, by with_unfolding_all decide,
    by with_unfolding_all decide⟩

/-- C4 amended: when no valid test fraction applies — test_size is 0 after the
validity reset, or does not fit within the remaining budget — the classifier
is fit on the ENTIRE stored dataset, the validation split included, and
testing is skipped with an empty result mapping. -/
theorem train_skip_test_fits_full_dataset (sk : Sklearn) (s : MLPState)
    (method : String) (vs ts rt : ℚ) (ne nn : ℕ) (kw : Kwargs)
    (f : List (List ℚ)) (l : List ℤ)
    (hm : method ∈ ["RandomForest", "GBDT", "KNN", "NaiveBayes"])
    (hv0 : 0 < vs) (hv1 : vs < 1)
    (hf : s.features = some f) (hl : s.labels = some l)
    (hts : ts ≤ 0 ∨ 1 ≤ ts ∨ 1 - vs ≤ ts) :
    (train sk s method vs ts rt ne nn kw).map
      (fun p => (p.2.fitX, p.2.fitY, p.2.x_test, p.2.ans)) =
      .ok (f, l, none, []) :=
  train_no_test_proj sk s method vs ts rt ne nn kw f l hm hv0 hv1 hf hl hts

/-- C4 amended witness: the concrete counterexample configuration satisfies
the amended statement. -/
theorem train_skip_test_fits_full_dataset_witness :
    ("RandomForest" ∈ ["RandomForest", "GBDT", "KNN", "NaiveBayes"]) ∧
    (0 : ℚ) < 1 / 10 ∧ (1 : ℚ) / 10 < 1 ∧
    st40.features = some feats40 ∧ st40.labels = some labels40 ∧
    ((0 : ℚ) ≤ 0 ∨ (1 : ℚ) ≤ 0 ∨ 1 - 1 / 10 ≤ 0) ∧
    (train sklearnLast st40 "RandomForest" (1 / 10) 0 (7 / 10) 500 5 {}).map
      (fun p => (p.2.fitX, p.2.fitY, p.2.x_test, p.2.ans)) =
      .ok (feats40, labels40, none, []) :=
  ⟨by decide, by norm_num, by norm_num, rfl, rfl, Or.inl le_rfl,
    train_skip_test_fits_full_dataset sklearnLast st40 "RandomForest"
      (1 / 10) 0 (7 / 10) 500 5 {} feats40 labels40 (by decide)
      (by norm_num) (by norm_num) rfl rfl (Or.inl le_rfl)⟩

/-- C8: a test_size outside [0, 1) never makes train raise: it is reset to 0
with a warning, no test split is made, and the returned result mapping is
empty. -/
theorem train_invalid_test_size_no_raise (sk : Sklearn) (s : MLPState)
    (method : String) (vs ts rt : ℚ) (ne nn : ℕ) (kw : Kwargs)
    (f : List (List ℚ)) (l : List ℤ)
    (hm : method ∈ ["RandomForest", "GBDT", "KNN", "NaiveBayes"])
    (hv0 : 0 < vs) (hv1 : vs < 1)
    (hf : s.features = some f) (hl : s.labels = some l)
    (hts : ts < 0 ∨ 1 ≤ ts) :
    (train sk s method vs ts rt ne nn kw).map
      (fun p => (p.2.x_test, p.2.ans)) = .ok (none, []) := by
  have h4 := train_no_test_proj sk s method vs ts rt ne nn kw f l hm hv0 hv1
    hf hl (hts.imp le_of_lt Or.inl)
  rcases htr : train sk s method vs ts rt ne nn kw with e | p
  · rw [htr] at h4; simp [Except.map] at h4
  · rw [htr] at h4
    simp only [Except.map] at h4 ⊢
    have h5 : p.2.x_test = none ∧ p.2.ans = [] := by
      have := Except.ok.inj h4
      exact ⟨congrArg (fun q => q.2.2.1) this, congrArg (fun q => q.2.2.2) this⟩
    rw [h5.1, h5.2]

/-- C8 witness: a negative test_size on the concrete configuration. -/
theorem train_invalid_test_size_no_raise_witness :
    ("KNN" ∈ ["RandomForest", "GBDT", "KNN", "NaiveBayes"]) ∧
    (0 : ℚ) < 1 / 10 ∧ (1 : ℚ) / 10 < 1 ∧
    st40.features = some feats40 ∧ st40.labels = some labels40 ∧
    ((-1 : ℚ) < 0 ∨ (1 : ℚ) ≤ -1) ∧
    (train sklearnStub st40 "KNN" (1 / 10) (-1) (7 / 10) 500 5 {}).map
      (fun p => (p.2.x_test, p.2.ans)) = .ok (none, []) :=
  ⟨by decide, by norm_num, by norm_num, rfl, rfl, Or.inl (by norm_num),
    train_invalid_test_size_no_raise sklearnStub st40 "KNN" (1 / 10) (-1)
      (7 / 10) 500 5 {} feats40 labels40 (by decide) (by norm_num)
      (by norm_num) rfl rfl (Or.inl (by norm_num))⟩

/-- C2 as code_bug evidence: train never reads its declared n_neighbors
parameter; a call train(method="KNN", n_neighbors=k) binds k to that parameter
under Python keyword binding, kwargs stays empty, and the KNN branch reads
kwargs.get("n_neighbors", 5) — so the constructed classifier has 5 neighbors
for every k, contradicting the docstring and the claim. -/
theorem train_knn_ignores_n_neighbors (sk : Sklearn) (s : MLPState) (k : ℕ)
    (f : List (List ℚ)) (l : List ℤ)
    (hf : s.features = some f) (hl : s.labels = some l) :
    (train_knn_call sk s k).map (fun p => p.2.clf) = .ok (.kNeighbors 5) := by
  rw [train_knn_call, train.eq_def, if_neg (by decide), if_neg (by norm_num)]
  simp only [hf, hl]
  rfl

/-- C2 witness: the concrete call with n_neighbors=10 still constructs a
5-neighbor classifier. -/
theorem train_knn_ignores_n_neighbors_witness :
    st40.features = some feats40 ∧ st40.labels = some labels40 ∧
    (train_knn_call sklearnStub st40 10).map (fun p => p.2.clf) =
      .ok (.kNeighbors 5) ∧
    Classifier.kNeighbors 5 ≠ Classifier.kNeighbors 10 :=
  ⟨rfl, rfl,
    train_knn_ignores_n_neighbors sklearnStub st40 10 feats40 labels40 rfl rfl,
    by decide⟩

end KatsMLP
